import Mathlib

/-!
Verification of the workflow execution engine of the jobscraper repository.

The repository delegates the interpreter loop, state-merge protocol and
checkpoint store to an external graph library; the repository itself
declares the state schema (`WorkflowState` in src/src/workflows/base.py,
where only `messages` carries a concatenation merge annotation), the
orchestration (`BaseWorkflow.run` / `BaseWorkflow.resume` / `compile`,
which binds a fresh per-instance in-memory checkpointer created in
`__init__`), and the workflow registry (src/src/workflows/registry.py).
Parts whose deciding code is not in the repository are modelled from the
specification (sections 4.1 to 4.4) and say so in their doc comments.
-/

/-- Values stored in the string-keyed dictionaries of a workflow state.
The engine never inspects them; three base constructors suffice. -/
inductive Value where
  | vstr : String → Value
  | vnat : Nat → Value
  | vbool : Bool → Value
  deriving DecidableEq, Repr

/-- A Python-style string-keyed dictionary, kept as an ordered association
list: assignment overwrites in place, new keys are appended. -/
abbrev Dict' (α : Type) := List (String × α)

abbrev Dict := Dict' Value

/-- Python dictionary assignment `d[k] = v`: if the key exists its value is
replaced in place, otherwise the pair is appended at the end. -/
def dictSet {α : Type} : Dict' α → String → α → Dict' α
  | [], k, v => [(k, v)]
  | (k', v') :: rest, k, v =>
    if k' = k then (k, v) :: rest else (k', v') :: dictSet rest k v

/-- Python dictionary lookup `d.get(k)`: first (hence only) binding wins. -/
def dictGet {α : Type} : Dict' α → String → Option α
  | [], _ => none
  | (k', v) :: rest, k => if k' = k then some v else dictGet rest k

/-- Python `d.update(delta)`: every binding of `delta` is assigned into `d`
in order (colliding keys overwritten, new keys appended). -/
def dictUpdate {α : Type} (d delta : Dict' α) : Dict' α :=
  delta.foldl (fun acc kv => dictSet acc kv.1 kv.2) d

/-- The execution state threaded through a run, after `WorkflowState` in
src/src/workflows/base.py lines 11 to 31. -/
structure WorkflowState where
  execution_id : String
  workflow_name : String
  current_step : String
  input_data : Dict
  output_data : Dict
  messages : List String
  error : Option String
  should_retry : Bool
  data : Dict
  deriving DecidableEq, Repr

/-- The partial state a handler returns; a `none` field is absent from the
delta. `execution_id` and `workflow_name` are immutable per spec section 3
and carry no delta field. -/
structure StateDelta where
  current_step : Option String := none
  input_data : Option Dict := none
  output_data : Option Dict := none
  messages : Option (List String) := none
  error : Option (Option String) := none
  should_retry : Option Bool := none
  data : Option Dict := none
  deriving DecidableEq, Repr

/-- Merge of a handler delta into the running state. The `messages` field
concatenates, from the `operator.add` annotation on `WorkflowState.messages`
in src/src/workflows/base.py line 24. Modelled from the spec, section 4.1,
for the rest (the merge itself runs inside the external graph library):
a delta touching `input_data` is ignored by the engine, and the other
recognized fields are last-write-wins whole-value replacement. -/
def mergeState (s : WorkflowState) (d : StateDelta) : WorkflowState :=
  { s with
    current_step := d.current_step.getD s.current_step
    output_data := d.output_data.getD s.output_data
    messages := s.messages ++ d.messages.getD []
    error := d.error.getD s.error
    should_retry := d.should_retry.getD s.should_retry
    data := d.data.getD s.data }

/-- A node handler: consumes the current state, returns a delta. -/
abbrev Handler := WorkflowState → StateDelta

/-- Where an edge leads: a named node or the reserved terminal marker
(the END constant of src/src/workflows/base.py lines 81 to 90). -/
inductive Target where
  | node : String → Target
  | terminal
  deriving DecidableEq, Repr

/-- A compiled edge: unconditional, or conditional with a label function
and a label-to-target table. -/
inductive Edge where
  | uncond : String → Target → Edge
  | cond : String → (WorkflowState → String) → Dict' Target → Edge

/-- A compiled, immutable graph definition (spec section 3). -/
structure CompiledGraph where
  nodes : Dict' Handler
  edges : List Edge
  entryPoint : String

/-- Handler lookup by node name. -/
def handlerOf (g : CompiledGraph) (n : String) : Option Handler :=
  dictGet g.nodes n

/-- First registered conditional edge leaving node `n`, if any. -/
def findCondEdgeFrom : List Edge → String → Option ((WorkflowState → String) × Dict' Target)
  | [], _ => none
  | Edge.cond src f m :: rest, n =>
    if src = n then some (f, m) else findCondEdgeFrom rest n
  | Edge.uncond _ _ :: rest, n => findCondEdgeFrom rest n

/-- First registered unconditional edge leaving node `n`, if any. -/
def findUncondEdgeFrom : List Edge → String → Option Target
  | [], _ => none
  | Edge.uncond src t :: rest, n =>
    if src = n then some t else findUncondEdgeFrom rest n
  | Edge.cond _ _ _ :: rest, n => findUncondEdgeFrom rest n

/-- Runtime routing failures (spec section 7). -/
inductive RuntimeError where
  | UnknownNode
  | UnmappedConditionResult
  deriving DecidableEq, Repr

/-- Modelled from the spec, section 4.3 step 4: choose the next target
after a node. A conditional edge takes precedence; its condition function
is applied to the post-merge state and an unmapped label is fatal. With
no conditional edge an unconditional edge is followed; with no edge at
all the result is `none`, implicit termination. -/
def nextTarget (g : CompiledGraph) (from_node : String) (s : WorkflowState) :
    Except RuntimeError (Option Target) :=
  match findCondEdgeFrom g.edges from_node with
  | some (f, mapping) =>
    match dictGet mapping (f s) with
    | some t => Except.ok (some t)
    | none => Except.error RuntimeError.UnmappedConditionResult
  | none =>
    match findUncondEdgeFrom g.edges from_node with
    | some t => Except.ok (some t)
    | none => Except.ok none

/-- The checkpoint store: state snapshots keyed by execution identity. -/
abbrev Store := Dict' WorkflowState

/-- Modelled from the spec, section 4.4: `save` is overwrite-whole, keyed
strictly by the execution identity (the in-memory saver of the external
graph library, bound by `BaseWorkflow.compile`). -/
def storeSave (store : Store) (execId : String) (st : WorkflowState) : Store :=
  dictSet store execId st

/-- Modelled from the spec, section 4.4: `load` returns the saved state
for the identity, or nothing when absent. -/
def storeLoad (store : Store) (execId : String) : Option WorkflowState :=
  dictGet store execId

/-- Outcome of driving the interpreter loop. -/
inductive RunOutcome where
  | finished : WorkflowState → RunOutcome
  | fatal : RuntimeError → WorkflowState → RunOutcome
  | outOfFuel : WorkflowState → RunOutcome
  deriving DecidableEq, Repr

/-- The state carried by an outcome. -/
def RunOutcome.state : RunOutcome → WorkflowState
  | RunOutcome.finished s => s
  | RunOutcome.fatal _ s => s
  | RunOutcome.outOfFuel s => s

/-- Result of a run: the outcome, the checkpoint store after the run, the
node names executed in order, and the deltas they returned in order. -/
structure ExecResult where
  outcome : RunOutcome
  store : Store
  trace : List String
  deltas : List StateDelta
  deriving DecidableEq, Repr

/-- Extension of a run result by one completed step at its front: the
step's node name is prepended to the trace and its delta to the delta
list; outcome and final store pass through. -/
def withStep (n : String) (d : StateDelta) (r : ExecResult) : ExecResult :=
  { outcome := r.outcome, store := r.store, trace := n :: r.trace, deltas := d :: r.deltas }

@[simp] theorem withStep_outcome (n : String) (d : StateDelta) (r : ExecResult) :
    (withStep n d r).outcome = r.outcome := rfl

@[simp] theorem withStep_store (n : String) (d : StateDelta) (r : ExecResult) :
    (withStep n d r).store = r.store := rfl

@[simp] theorem withStep_trace (n : String) (d : StateDelta) (r : ExecResult) :
    (withStep n d r).trace = n :: r.trace := rfl

@[simp] theorem withStep_deltas (n : String) (d : StateDelta) (r : ExecResult) :
    (withStep n d r).deltas = d :: r.deltas := rfl

/-- Modelled from the spec, section 4.3: the interpreter loop. Per step it
looks up the handler of `current_step` (missing handler is fatal), invokes
it, merges the delta, persists a checkpoint keyed by the execution
identity before proceeding, then determines the next target; the terminal
marker or the absence of any edge stops successfully, otherwise
`current_step` is set to the target and the loop repeats. `fuel` bounds
the recursion of the embedding. -/
def execLoop (g : CompiledGraph) (store : Store) (s : WorkflowState) : Nat → ExecResult
  | 0 => { outcome := RunOutcome.outOfFuel s, store := store, trace := [], deltas := [] }
  | fuel + 1 =>
    match handlerOf g s.current_step with
    | none =>
      { outcome := RunOutcome.fatal RuntimeError.UnknownNode s,
        store := store, trace := [], deltas := [] }
    | some h =>
      match nextTarget g s.current_step (mergeState s (h s)) with
      | Except.error e =>
        { outcome := RunOutcome.fatal e (mergeState s (h s)),
          store := storeSave store s.execution_id (mergeState s (h s)),
          trace := [s.current_step], deltas := [h s] }
      | Except.ok none =>
        { outcome := RunOutcome.finished (mergeState s (h s)),
          store := storeSave store s.execution_id (mergeState s (h s)),
          trace := [s.current_step], deltas := [h s] }
      | Except.ok (some Target.terminal) =>
        { outcome := RunOutcome.finished (mergeState s (h s)),
          store := storeSave store s.execution_id (mergeState s (h s)),
          trace := [s.current_step], deltas := [h s] }
      | Except.ok (some (Target.node nxt)) =>
        withStep s.current_step (h s)
          (execLoop g (storeSave store s.execution_id (mergeState s (h s)))
            { mergeState s (h s) with current_step := nxt } fuel)

/-- The freshly initialized state a run starts from, after
`BaseWorkflow.run` in src/src/workflows/base.py lines 111 to 121. -/
def initialState (name entry : String) (input : Dict) (execId : String) : WorkflowState :=
  { execution_id := execId
    workflow_name := name
    current_step := entry
    input_data := input
    output_data := []
    messages := []
    error := none
    should_retry := false
    data := [] }

/-- A run, after `BaseWorkflow.run`: build the fresh initial state at the
entry point and drive the interpreter loop on it. -/
def runWorkflow (g : CompiledGraph) (name : String) (input : Dict) (execId : String)
    (fuel : Nat) (store : Store) : ExecResult :=
  execLoop g store (initialState name g.entryPoint input execId) fuel

/-- Failure of a resume: no checkpoint for the identity (spec section 4.4). -/
inductive ResumeError where
  | NotFound
  deriving DecidableEq, Repr

/-- Resume, after `BaseWorkflow.resume` in src/src/workflows/base.py lines
137 to 151 with the checkpoint access modelled from the spec, section 4.4:
load the last checkpoint for the identity, optionally merge the new input
into `input_data` (Python in-place `dict.update`: colliding keys
overwritten, new keys added), and re-enter the loop on the checkpointed
state, whose `current_step` is the one recorded at the checkpoint. -/
def resumeWorkflow (g : CompiledGraph) (execId : String) (newInput : Option Dict)
    (fuel : Nat) (store : Store) : Except ResumeError ExecResult :=
  match storeLoad store execId with
  | none => Except.error ResumeError.NotFound
  | some st =>
    match newInput with
    | none => Except.ok (execLoop g store st fuel)
    | some ni =>
      Except.ok (execLoop g store { st with input_data := dictUpdate st.input_data ni } fuel)

/-- A raw edge tuple as a workflow definition supplies it, after
`define_edges` in src/src/workflows/base.py: a simple pair whose target
may be the string "END", or a conditional triple whose mapping values may
be "END". -/
inductive RawEdge where
  | simple : String → String → RawEdge
  | conditional : String → (WorkflowState → String) → Dict' String → RawEdge

/-- Conversion of an "END" string to the terminal marker, after
`BaseWorkflow.build` in src/src/workflows/base.py lines 77 to 92. -/
def toTarget (t : String) : Target :=
  if t = "END" then Target.terminal else Target.node t

/-- Compilation of one raw edge, after `BaseWorkflow.build`. -/
def buildEdge : RawEdge → Edge
  | RawEdge.simple a b => Edge.uncond a (toTarget b)
  | RawEdge.conditional a f m =>
    Edge.cond a f (m.map (fun kv => (kv.1, toTarget kv.2)))

/-- Compile-time graph errors (spec sections 4.2 and 7). -/
inductive CompileError where
  | UnknownEntryPoint
  | UnknownNode
  | DuplicateNode
  deriving DecidableEq, Repr

/-- Whether an edge target name is a registered node or the terminal
marker string. -/
def targetOk (names : List String) (t : String) : Bool :=
  t = "END" || names.contains t

/-- Whether a raw edge references only registered nodes (its target side
may also be the terminal marker). -/
def rawEdgeOk (names : List String) : RawEdge → Bool
  | RawEdge.simple a b => names.contains a && targetOk names b
  | RawEdge.conditional a _ m =>
    names.contains a && m.all (fun kv => targetOk names kv.2)

/-- Whether a node name occurs twice in the registration list. -/
def hasDupNames : List String → Bool
  | [] => false
  | x :: xs => xs.contains x || hasDupNames xs

/-- Modelled from the spec, section 4.2: graph compilation validates the
definition before any execution, each violation failing with its distinct
error in the order the spec lists them: an entry point absent from the
nodes is `UnknownEntryPoint`, an edge referencing an unregistered name is
`UnknownNode`, a doubly registered node name is `DuplicateNode`. No
handler is invoked during compilation. -/
def compileGraph (nodes : Dict' Handler) (edges : List RawEdge) (entry : String) :
    Except CompileError CompiledGraph :=
  if (nodes.map Prod.fst).contains entry = false then
    Except.error CompileError.UnknownEntryPoint
  else if edges.all (rawEdgeOk (nodes.map Prod.fst)) = false then
    Except.error CompileError.UnknownNode
  else if hasDupNames (nodes.map Prod.fst) then
    Except.error CompileError.DuplicateNode
  else
    Except.ok { nodes := nodes, edges := edges.map buildEdge, entryPoint := entry }

/-- The full pipeline of one triggered run: compile the definition, then
execute from the entry point; a compile-time error is returned before any
node executes. -/
def runPipeline (nodes : Dict' Handler) (edges : List RawEdge) (entry : String)
    (name : String) (input : Dict) (execId : String) (fuel : Nat) (store : Store) :
    Except CompileError ExecResult :=
  match compileGraph nodes edges entry with
  | Except.error e => Except.error e
  | Except.ok g => Except.ok (runWorkflow g name input execId fuel store)

/-- The workflow registry, after `WorkflowRegistry` in
src/src/workflows/registry.py: a name-keyed mapping to workflow classes
(kept abstract as a type parameter). -/
structure WorkflowRegistry (α : Type) where
  _workflows : Dict' α

/-- The empty registry, after `WorkflowRegistry.__init__`. -/
def WorkflowRegistry.empty {α : Type} : WorkflowRegistry α :=
  { _workflows := [] }

/-- Registration, after `WorkflowRegistry.register`: plain dictionary
assignment, so a later registration under the same name replaces the
earlier one without error. -/
def WorkflowRegistry.register {α : Type} (r : WorkflowRegistry α) (name : String)
    (workflow_class : α) : WorkflowRegistry α :=
  { r with _workflows := dictSet r._workflows name workflow_class }

/-- Lookup, after `WorkflowRegistry.get`: `dict.get`, absent names give
nothing. -/
def WorkflowRegistry.get {α : Type} (r : WorkflowRegistry α) (name : String) : Option α :=
  dictGet r._workflows name

/-- Registered names, after `WorkflowRegistry.list`. -/
def WorkflowRegistry.list {α : Type} (r : WorkflowRegistry α) : List String :=
  r._workflows.map Prod.fst

/-- A constructed workflow instance, after `BaseWorkflow.__init__` in
src/src/workflows/base.py lines 37 to 40: its checkpointer is a fresh
in-memory store created at construction time, and `compile` binds that
same per-instance store to every run and resume on the instance. -/
structure BaseWorkflowInst where
  name : String
  checkpointer : Store

/-- Construction of a workflow instance: the checkpointer starts as a
fresh empty store. -/
def mkWorkflow (name : String) : BaseWorkflowInst :=
  { name := name, checkpointer := [] }

/-- A run on an instance uses the instance's own checkpointer and leaves
the checkpoints the run wrote in that same instance. -/
def instRun (w : BaseWorkflowInst) (g : CompiledGraph) (input : Dict) (execId : String)
    (fuel : Nat) : ExecResult × BaseWorkflowInst :=
  (runWorkflow g w.name input execId fuel w.checkpointer,
   { w with checkpointer := (runWorkflow g w.name input execId fuel w.checkpointer).store })

/-- A resume on an instance consults only the instance's own checkpointer. -/
def instResume (w : BaseWorkflowInst) (g : CompiledGraph) (execId : String)
    (newInput : Option Dict) (fuel : Nat) : Except ResumeError ExecResult :=
  resumeWorkflow g execId newInput fuel w.checkpointer

/-- The error value left after folding a run's deltas over an initial
error: each delta that carries an error field overwrites, the others
leave it unchanged. -/
def errorAfter (e0 : Option String) (ds : List StateDelta) : Option String :=
  ds.foldl (fun acc d => d.error.getD acc) e0

/-- Dictionary assignment followed by lookup of the same key yields the
assigned value. -/
theorem dictGet_dictSet_self {α : Type} :
    ∀ (d : Dict' α) (k : String) (v : α), dictGet (dictSet d k v) k = some v
  | [], k, v => by simp [dictSet, dictGet]
  | (k', v') :: rest, k, v => by
    by_cases hk : k' = k
    · simp [dictSet, dictGet, hk]
    · simp [dictSet, dictGet, hk, dictGet_dictSet_self rest k v]

/-- A key absent from a dictionary's key list looks up to nothing. -/
theorem dictGet_eq_none_of_not_mem {α : Type} :
    ∀ (d : Dict' α) (k : String), k ∉ d.map Prod.fst → dictGet d k = none
  | [], _, _ => rfl
  | (k', v') :: rest, k, hk => by
    have h1 : k' ≠ k := by
      intro h
      exact hk (by simp [h])
    have h2 : k ∉ rest.map Prod.fst := by
      intro h
      exact hk (by simp [h])
    simp [dictGet, h1, dictGet_eq_none_of_not_mem rest k h2]

/-- The interpreter loop never changes `input_data`: the state inside the
outcome keeps the input the loop started from, whatever the handlers
return. -/
theorem execLoop_input_data (g : CompiledGraph) :
    ∀ (fuel : Nat) (s : WorkflowState) (store : Store),
    ((execLoop g store s fuel).outcome.state).input_data = s.input_data := by
  intro fuel
  induction fuel with
  | zero => intro s store; rfl
  | succ n ih =>
    intro s store
    simp only [execLoop]
    split
    · rfl
    · split
      · rfl
      · rfl
      · rfl
      · simp only [withStep_outcome]
        rw [ih]
        simp [mergeState]

/-- Message accumulation: the messages in the outcome state are the
starting messages followed by the concatenation, in execution order, of
the message lists of the emitted deltas. -/
theorem execLoop_messages (g : CompiledGraph) :
    ∀ (fuel : Nat) (s : WorkflowState) (store : Store),
    ((execLoop g store s fuel).outcome.state).messages
      = s.messages
        ++ ((execLoop g store s fuel).deltas.map (fun d => d.messages.getD [])).flatten := by
  intro fuel
  induction fuel with
  | zero => intro s store; simp [execLoop, RunOutcome.state]
  | succ n ih =>
    intro s store
    simp only [execLoop]
    split
    · simp [RunOutcome.state]
    · split
      · simp [RunOutcome.state, mergeState]
      · simp [RunOutcome.state, mergeState]
      · simp [RunOutcome.state, mergeState]
      · simp only [withStep_outcome, withStep_deltas, List.map_cons, List.flatten_cons]
        rw [ih]
        simp [mergeState, List.append_assoc]

/-- Error propagation: the error in the outcome state is the starting
error overwritten, in order, by exactly those deltas that carry an error
field; the loop itself never clears, sets or inspects it. -/
theorem execLoop_error (g : CompiledGraph) :
    ∀ (fuel : Nat) (s : WorkflowState) (store : Store),
    ((execLoop g store s fuel).outcome.state).error
      = errorAfter s.error (execLoop g store s fuel).deltas := by
  intro fuel
  induction fuel with
  | zero => intro s store; rfl
  | succ n ih =>
    intro s store
    simp only [execLoop]
    split
    · rfl
    · split
      · simp [RunOutcome.state, mergeState, errorAfter]
      · simp [RunOutcome.state, mergeState, errorAfter]
      · simp [RunOutcome.state, mergeState, errorAfter]
      · simp only [withStep_outcome, withStep_deltas]
        rw [ih]
        simp [errorAfter, mergeState]

/-- The loop's observable behavior (outcome, trace, deltas) does not
depend on the checkpoint store it starts with: the loop only writes the
store, it never reads it during a run. -/
theorem execLoop_store_irrel (g : CompiledGraph) :
    ∀ (fuel : Nat) (s : WorkflowState) (store₁ store₂ : Store),
    (execLoop g store₁ s fuel).outcome = (execLoop g store₂ s fuel).outcome
    ∧ (execLoop g store₁ s fuel).trace = (execLoop g store₂ s fuel).trace
    ∧ (execLoop g store₁ s fuel).deltas = (execLoop g store₂ s fuel).deltas := by
  intro fuel
  induction fuel with
  | zero => intro s store₁ store₂; exact ⟨rfl, rfl, rfl⟩
  | succ n ih =>
    intro s store₁ store₂
    simp only [execLoop]
    split
    · exact ⟨rfl, rfl, rfl⟩
    · split
      · exact ⟨rfl, rfl, rfl⟩
      · exact ⟨rfl, rfl, rfl⟩
      · exact ⟨rfl, rfl, rfl⟩
      · rename_i x1 hF heq1 x2 nxt heq2
        obtain ⟨h1, h2, h3⟩ := ih { mergeState s (hF s) with current_step := nxt }
          (storeSave store₁ s.execution_id (mergeState s (hF s)))
          (storeSave store₂ s.execution_id (mergeState s (hF s)))
        exact ⟨by simp [h1], by simp [h2], by simp [h3]⟩

/-- Whenever the current step has a handler and at least one unit of fuel
remains, the executed trace starts with the current step. -/
theorem execLoop_trace_head (g : CompiledGraph) (s : WorkflowState) (store : Store)
    (fuel : Nat) (h : Handler) (hh : handlerOf g s.current_step = some h) :
    (execLoop g store s (fuel + 1)).trace.head? = some s.current_step := by
  simp only [execLoop, hh]
  split <;> rfl

/-- A scenario handler: appends one message. -/
def stepHandlerA : Handler := fun _ => { messages := some ["from a"] }

/-- A scenario handler: appends one message and reports a business error
inside its delta, as the handler contract prescribes. -/
def boomHandler : Handler :=
  fun _ => { messages := some ["from a"], error := some (some "boom") }

/-- A scenario handler for a terminal node: writes an output value. -/
def stepHandlerB : Handler := fun _ => { output_data := some [("done", Value.vbool true)] }

/-- A two-node scenario graph: node "a" leads unconditionally to node
"b", which has no outgoing edge. -/
def twoNodeGraph : CompiledGraph :=
  { nodes := [("a", stepHandlerA), ("b", stepHandlerB)],
    edges := [Edge.uncond "a" (Target.node "b")], entryPoint := "a" }

/-- The two-node scenario graph with the entry handler reporting an error
in its delta. -/
def boomGraph : CompiledGraph :=
  { nodes := [("a", boomHandler), ("b", stepHandlerB)],
    edges := [Edge.uncond "a" (Target.node "b")], entryPoint := "a" }

/-- A one-node scenario graph with no edges at all. -/
def soloGraph : CompiledGraph :=
  { nodes := [("a", stepHandlerA)], edges := [], entryPoint := "a" }

/-- A checkpointed state that was suspended at node "b". -/
def checkpointAtB : WorkflowState :=
  { execution_id := "e1", workflow_name := "wf", current_step := "b",
    input_data := [("k", Value.vnat 1)], output_data := [], messages := [],
    error := none, should_retry := false, data := [] }

/-- New input supplied at resume time: one colliding key, one new key. -/
def newResumeInput : Dict := [("k", Value.vnat 2), ("m", Value.vstr "x")]

/-- C1: across any run the `messages` of the final state are exactly the
concatenation, in execution order, of the message lists of the deltas the
executed nodes returned, never reordered and never deduplicated; and at
every merge a delta's messages are appended to, never replace, the
existing sequence. -/
theorem messages_concatenate (g : CompiledGraph) (name : String) (input : Dict)
    (execId : String) (fuel : Nat) (store : Store) (s : WorkflowState) (d : StateDelta) :
    (runWorkflow g name input execId fuel store).outcome.state.messages
      = ((runWorkflow g name input execId fuel store).deltas.map
          (fun d' => d'.messages.getD [])).flatten
    ∧ (execLoop g store s fuel).outcome.state.messages
      = s.messages
        ++ ((execLoop g store s fuel).deltas.map (fun d' => d'.messages.getD [])).flatten
    ∧ (mergeState s d).messages = s.messages ++ d.messages.getD [] := by
  refine ⟨?_, execLoop_messages g fuel s store, rfl⟩
  have h := execLoop_messages g fuel (initialState name g.entryPoint input execId) store
  simpa [runWorkflow, initialState] using h

/-- C2: handlers cannot mutate `input_data`: the engine's merge leaves it
unchanged whatever the delta contains, any loop run preserves it, and the
final state of a run carries exactly the `input_data` the caller supplied
at the start. -/
theorem input_data_immutable (g : CompiledGraph) (name : String) (input : Dict)
    (execId : String) (fuel : Nat) (store : Store) (s : WorkflowState) (d : StateDelta) :
    (mergeState s d).input_data = s.input_data
    ∧ (execLoop g store s fuel).outcome.state.input_data = s.input_data
    ∧ (runWorkflow g name input execId fuel store).outcome.state.input_data = input := by
  refine ⟨rfl, execLoop_input_data g fuel s store, ?_⟩
  have h := execLoop_input_data g fuel (initialState name g.entryPoint input execId) store
  simpa [runWorkflow, initialState] using h

/-- C3: resume re-enters the interpreter loop at the `current_step`
recorded in the checkpoint of the execution identity, not at the entry
point, and when new input is supplied the state execution continues under
carries the checkpointed `input_data` merged with the new input, with
colliding keys overwritten and new keys added. -/
theorem resume_reenters_at_checkpoint (g : CompiledGraph) (store : Store)
    (execId : String) (st : WorkflowState) (ni : Dict) (fuel : Nat) (h : Handler)
    (hl : storeLoad store execId = some st)
    (hh : handlerOf g st.current_step = some h) :
    resumeWorkflow g execId (some ni) (fuel + 1) store
      = Except.ok (execLoop g store
          { st with input_data := dictUpdate st.input_data ni } (fuel + 1))
    ∧ ({ st with input_data := dictUpdate st.input_data ni } : WorkflowState).current_step
        = st.current_step
    ∧ ({ st with input_data := dictUpdate st.input_data ni } : WorkflowState).input_data
        = dictUpdate st.input_data ni
    ∧ (execLoop g store { st with input_data := dictUpdate st.input_data ni }
        (fuel + 1)).trace.head? = some st.current_step := by
  refine ⟨?_, rfl, rfl, ?_⟩
  · simp [resumeWorkflow, hl]
  · exact execLoop_trace_head g _ store fuel h hh

/-- Witness for C3: a checkpoint suspended at node "b" of a graph whose
entry point is "a" resumes at "b", and the merged input overwrites the
colliding key and appends the new one. -/
theorem resume_reenters_at_checkpoint_witness :
    storeLoad [("e1", checkpointAtB)] "e1" = some checkpointAtB
    ∧ handlerOf twoNodeGraph checkpointAtB.current_step = some stepHandlerB
    ∧ (execLoop twoNodeGraph [("e1", checkpointAtB)]
        { checkpointAtB with
          input_data := dictUpdate checkpointAtB.input_data newResumeInput }
        (2 + 1)).trace.head? = some checkpointAtB.current_step
    ∧ dictUpdate checkpointAtB.input_data newResumeInput
        = [("k", Value.vnat 2), ("m", Value.vstr "x")] :=
  ⟨rfl, rfl,
   (resume_reenters_at_checkpoint twoNodeGraph [("e1", checkpointAtB)] "e1"
      checkpointAtB newResumeInput 2 stepHandlerB rfl rfl).2.2.2,
   by decide⟩

/-- C4: saving a checkpoint and immediately loading the same execution
identity returns the saved state, equal in every recognized field. -/
theorem checkpoint_round_trip (store : Store) (execId : String) (st : WorkflowState) :
    storeLoad (storeSave store execId st) execId = some st
    ∧ ∃ st', storeLoad (storeSave store execId st) execId = some st'
        ∧ st'.execution_id = st.execution_id
        ∧ st'.workflow_name = st.workflow_name
        ∧ st'.current_step = st.current_step
        ∧ st'.input_data = st.input_data
        ∧ st'.output_data = st.output_data
        ∧ st'.messages = st.messages
        ∧ st'.error = st.error
        ∧ st'.should_retry = st.should_retry
        ∧ st'.data = st.data := by
  have h := dictGet_dictSet_self store execId st
  exact ⟨h, st, h, rfl, rfl, rfl, rfl, rfl, rfl, rfl, rfl, rfl⟩

/-- C5: a graph definition whose entry point is not among the registered
node names fails compilation with the distinct error `UnknownEntryPoint`,
and the whole pipeline for it returns that error before executing
anything, so no node handler is ever invoked. -/
theorem unknown_entry_point_rejected (nodes : Dict' Handler) (edges : List RawEdge)
    (entry name : String) (input : Dict) (execId : String) (fuel : Nat) (store : Store)
    (he : (nodes.map Prod.fst).contains entry = false) :
    compileGraph nodes edges entry = Except.error CompileError.UnknownEntryPoint
    ∧ runPipeline nodes edges entry name input execId fuel store
        = Except.error CompileError.UnknownEntryPoint := by
  have h1 : compileGraph nodes edges entry = Except.error CompileError.UnknownEntryPoint := by
    unfold compileGraph
    rw [he]
    rfl
  refine ⟨h1, ?_⟩
  unfold runPipeline
  rw [h1]

/-- Witness for C5: a one-node graph compiled with the unknown entry
point name "zzz". -/
theorem unknown_entry_point_rejected_witness :
    (([("a", stepHandlerA)] : Dict' Handler).map Prod.fst).contains "zzz" = false
    ∧ compileGraph [("a", stepHandlerA)] [] "zzz"
        = Except.error CompileError.UnknownEntryPoint
    ∧ runPipeline [("a", stepHandlerA)] [] "zzz" "wf" [] "e1" 5 []
        = Except.error CompileError.UnknownEntryPoint :=
  ⟨by decide,
   (unknown_entry_point_rejected [("a", stepHandlerA)] [] "zzz" "wf" [] "e1" 5 []
      (by decide)).1,
   (unknown_entry_point_rejected [("a", stepHandlerA)] [] "zzz" "wf" [] "e1" 5 []
      (by decide)).2⟩

/-- C6: a delta whose error field is a non-null string does not make the
engine abort and is not treated specially: the step completes as one
ordinary `withStep` extension and execution continues along the outgoing
edge into the next node, the post-merge state carries the error, and the
final error is exactly the initial one overwritten by the deltas that set
it, so it survives unless a later delta overwrites it. -/
theorem error_field_not_special (g : CompiledGraph) (store : Store) (s : WorkflowState)
    (fuel : Nat) (h : Handler) (nxt : String) (e : String)
    (hh : handlerOf g s.current_step = some h)
    (he : (h s).error = some (some e))
    (hc : findCondEdgeFrom g.edges s.current_step = none)
    (hu : findUncondEdgeFrom g.edges s.current_step = some (Target.node nxt)) :
    execLoop g store s (fuel + 1)
      = withStep s.current_step (h s)
          (execLoop g (storeSave store s.execution_id (mergeState s (h s)))
            { mergeState s (h s) with current_step := nxt } fuel)
    ∧ (mergeState s (h s)).error = some e
    ∧ ({ mergeState s (h s) with current_step := nxt } : WorkflowState).current_step = nxt
    ∧ (execLoop g store s (fuel + 1)).outcome.state.error
        = errorAfter s.error (execLoop g store s (fuel + 1)).deltas := by
  have hnt : nextTarget g s.current_step (mergeState s (h s))
      = Except.ok (some (Target.node nxt)) := by
    simp [nextTarget, hc, hu]
  refine ⟨?_, ?_, rfl, execLoop_error g (fuel + 1) s store⟩
  · simp [execLoop, hh, hnt]
  · simp [mergeState, he]

/-- Witness for C6: the entry handler of the boom graph reports
error "boom"; the run continues into node "b" and finishes with the error
still present in the final state. -/
theorem error_field_not_special_witness :
    handlerOf boomGraph (initialState "wf" "a" [] "e1").current_step = some boomHandler
    ∧ (boomHandler (initialState "wf" "a" [] "e1")).error = some (some "boom")
    ∧ execLoop boomGraph [] (initialState "wf" "a" [] "e1") (1 + 1)
        = withStep "a" (boomHandler (initialState "wf" "a" [] "e1"))
            (execLoop boomGraph
              (storeSave [] "e1"
                (mergeState (initialState "wf" "a" [] "e1")
                  (boomHandler (initialState "wf" "a" [] "e1"))))
              { mergeState (initialState "wf" "a" [] "e1")
                  (boomHandler (initialState "wf" "a" [] "e1")) with
                current_step := "b" } 1)
    ∧ (execLoop boomGraph [] (initialState "wf" "a" [] "e1") (1 + 1)).outcome.state.error
        = some "boom" :=
  ⟨rfl, rfl,
   (error_field_not_special boomGraph [] (initialState "wf" "a" [] "e1") 1 boomHandler
      "b" "boom" rfl rfl rfl rfl).1,
   by decide⟩

/-- C7: when execution reaches a node with no outgoing edge at all, the
run terminates successfully right after that node's handler completes:
one step, a `finished` outcome with the merged state, independent of how
much fuel remains — an implicit graceful stop, not an error and not a
hang. -/
theorem dead_end_graceful_stop (g : CompiledGraph) (store : Store) (s : WorkflowState)
    (fuel : Nat) (h : Handler)
    (hh : handlerOf g s.current_step = some h)
    (hc : findCondEdgeFrom g.edges s.current_step = none)
    (hu : findUncondEdgeFrom g.edges s.current_step = none) :
    execLoop g store s (fuel + 1)
      = { outcome := RunOutcome.finished (mergeState s (h s)),
          store := storeSave store s.execution_id (mergeState s (h s)),
          trace := [s.current_step], deltas := [h s] } := by
  have hnt : nextTarget g s.current_step (mergeState s (h s)) = Except.ok none := by
    simp [nextTarget, hc, hu]
  simp [execLoop, hh, hnt]

/-- Witness for C7: the one-node edge-free graph stops gracefully after
its single handler, with plenty of fuel left. -/
theorem dead_end_graceful_stop_witness :
    handlerOf soloGraph (initialState "wf" "a" [] "e1").current_step = some stepHandlerA
    ∧ findUncondEdgeFrom soloGraph.edges (initialState "wf" "a" [] "e1").current_step = none
    ∧ execLoop soloGraph [] (initialState "wf" "a" [] "e1") (4 + 1)
        = { outcome := RunOutcome.finished
              (mergeState (initialState "wf" "a" [] "e1")
                (stepHandlerA (initialState "wf" "a" [] "e1"))),
            store := storeSave [] "e1"
              (mergeState (initialState "wf" "a" [] "e1")
                (stepHandlerA (initialState "wf" "a" [] "e1"))),
            trace := ["a"], deltas := [stepHandlerA (initialState "wf" "a" [] "e1")] } :=
  ⟨rfl, rfl,
   dead_end_graceful_stop soloGraph [] (initialState "wf" "a" [] "e1") 4 stepHandlerA
     rfl rfl rfl⟩

/-- C8: two sequential runs of the same workflow name with distinct
execution identities are isolated: the second run's outcome, executed
trace and emitted deltas are the same whether or not the first run
happened (its handlers observe nothing of the first run), and each run
starts from a freshly initialized state whose `output_data`, `data` and
`messages` are empty. -/
theorem sequential_runs_isolated (g : CompiledGraph) (name : String)
    (input1 input2 : Dict) (id1 id2 : String) (fuel1 fuel2 : Nat) (store : Store)
    (hne : id1 ≠ id2) :
    ((runWorkflow g name input2 id2 fuel2
          (runWorkflow g name input1 id1 fuel1 store).store).outcome
        = (runWorkflow g name input2 id2 fuel2 store).outcome
      ∧ (runWorkflow g name input2 id2 fuel2
          (runWorkflow g name input1 id1 fuel1 store).store).trace
        = (runWorkflow g name input2 id2 fuel2 store).trace
      ∧ (runWorkflow g name input2 id2 fuel2
          (runWorkflow g name input1 id1 fuel1 store).store).deltas
        = (runWorkflow g name input2 id2 fuel2 store).deltas)
    ∧ (initialState name g.entryPoint input2 id2).output_data = []
    ∧ (initialState name g.entryPoint input2 id2).data = []
    ∧ (initialState name g.entryPoint input2 id2).messages = [] := by
  refine ⟨?_, rfl, rfl, rfl⟩
  simpa [runWorkflow] using
    execLoop_store_irrel g fuel2 (initialState name g.entryPoint input2 id2)
      (runWorkflow g name input1 id1 fuel1 store).store store

/-- Witness for C8: the two-node graph run twice with identities "e1" and
"e2"; the second run's outcome is unchanged by the first. -/
theorem sequential_runs_isolated_witness :
    ("e1" : String) ≠ "e2"
    ∧ (runWorkflow twoNodeGraph "wf" [] "e2" 5
          (runWorkflow twoNodeGraph "wf" [] "e1" 5 []).store).outcome
        = (runWorkflow twoNodeGraph "wf" [] "e2" 5 []).outcome :=
  ⟨by decide,
   (sequential_runs_isolated twoNodeGraph "wf" [] [] "e1" "e2" 5 5 [] (by decide)).1.1⟩

/-- C9: registering a workflow class under an already registered name
replaces the earlier registration without error, so a later `get` returns
the most recently registered class, and `get` of a never-registered name
returns nothing. -/
theorem registry_last_write_wins {α : Type} (r : WorkflowRegistry α) (n : String)
    (c c' : α) :
    ((r.register n c).register n c').get n = some c'
    ∧ (∀ m : String, m ∉ r.list → r.get m = none) := by
  constructor
  · exact dictGet_dictSet_self _ n c'
  · intro m hm
    exact dictGet_eq_none_of_not_mem r._workflows m hm

/-- Witness for C9: registering 1 then 2 under "wf" yields 2, and a name
never registered yields nothing. -/
theorem registry_last_write_wins_witness :
    (((WorkflowRegistry.empty : WorkflowRegistry Nat).register "wf" 1).register
        "wf" 2).get "wf" = some 2
    ∧ (WorkflowRegistry.empty : WorkflowRegistry Nat).get "other" = none :=
  ⟨(registry_last_write_wins (WorkflowRegistry.empty : WorkflowRegistry Nat)
      "wf" 1 2).1,
   (registry_last_write_wins (WorkflowRegistry.empty : WorkflowRegistry Nat)
      "wf" 1 2).2 "other" (by decide)⟩

/-- C10: every workflow instance is constructed with its own fresh empty
in-memory checkpoint store, runs and resumes on an instance bind that
same per-instance store, so a resume on a different instance — even one
of the same workflow name with the same execution identity, after the
first instance has run — finds no checkpoint. -/
theorem per_instance_checkpointer (name nm2 : String) (g g2 : CompiledGraph)
    (input : Dict) (execId : String) (fuel fuel2 : Nat) (ni : Option Dict) :
    (mkWorkflow name).checkpointer = []
    ∧ instResume (mkWorkflow nm2) g2 execId ni fuel2
        = Except.error ResumeError.NotFound
    ∧ (instRun (mkWorkflow name) g input execId fuel).2.checkpointer
        = (runWorkflow g name input execId fuel []).store :=
  ⟨rfl, rfl, rfl⟩
